import Mathlib

set_option linter.unusedVariables false

/-!
Verification development for the multi-interval BESS dispatch optimizer.

The definitions below are a shallow embedding of `app/milp_solver.py`
(`solve_dispatch`) and `app/agent_tools.py` (`prepare_milp_payload`,
`_estimate_irradiance_factor`).  Python floats are modelled as exact
rationals (`ℚ`); Python dict keys that may be absent are modelled as
`Option` fields (with `none` standing for an absent key); the external
CBC solver is modelled as an oracle (`SolveOutcome`) whose documented
contract — returning an assignment satisfying the constraints the code
posted, optimal when status is OPTIMAL — appears as a hypothesis where a
theorem needs it.
-/

namespace DispatchCore

/-- Python `x or d` for a numeric `x` that may be absent (`none`): an
absent value or a numeric zero (falsy) falls back to `d`. -/
def orQ (x : Option ℚ) (d : ℚ) : ℚ :=
  match x with
  | none => d
  | some v => if v = 0 then d else v

/-- Python f-string `f"t{idx}"` used for default interval labels. -/
def tLabel (idx : Nat) : String := "t" ++ toString idx

/-- Numeric value of a CP-SAT boolean variable. -/
def boolVal (b : Bool) : ℚ := if b then 1 else 0

/-- Raw entry of the `dispatch_intervals` argument of `solve_dispatch`:
a Python dict whose keys may be absent (`none`).  A non-dict list entry
is modelled as `none` at the list level (see `Args`). -/
structure RawInterval where
  label : Option String := none
  mw_forecast : Option ℚ := none
  grid_limit_mw : Option ℚ := none
  curtailment_weight : Option ℚ := none
  cycle_penalty : Option ℚ := none
  irradiance_factor : Option ℚ := none
  forecast_confidence : Option ℚ := none
deriving DecidableEq

/-- Normalized interval, as built by `solve_dispatch` lines 66-105. -/
structure Interval where
  label : String
  mw_forecast : ℚ
  grid_limit_mw : ℚ
  curtailment_weight : ℚ
  cycle_penalty : ℚ
  irradiance_factor : Option ℚ := none
  forecast_confidence : Option ℚ := none
deriving DecidableEq

instance : Inhabited Interval := ⟨⟨"", 0, 0, 0, 0, none, none⟩⟩

/-- Arguments of `solve_dispatch`, with the source's default values.
An entry `none` in `dispatch_intervals` models a non-dict list element,
which the source skips. -/
structure Args where
  mw_forecast : ℚ
  bess_soc : ℚ := 35 / 100
  bess_capacity_mwh : ℚ := 50
  max_charge_mw : ℚ := 5
  max_discharge_mw : ℚ := 5
  grid_limit_mw : Option ℚ := none
  curtailment_weight : ℚ := 1000
  cycle_penalty : ℚ := 1
  dispatch_intervals : Option (List (Option RawInterval)) := none
deriving DecidableEq

/-- Input validation and normalization of `solve_dispatch` (lines 58-63):
values are clamped, never rejected. -/
def normArgs (a : Args) : Args :=
  { a with
    mw_forecast := max a.mw_forecast 0
    bess_soc := max (min a.bess_soc 1) 0
    bess_capacity_mwh := max a.bess_capacity_mwh 0
    max_charge_mw := max a.max_charge_mw 0
    max_discharge_mw := max a.max_discharge_mw 0 }

/-- Normalization of one provided interval dict (lines 69-88).  Python's
`float(interval.get("mw_forecast", mw_forecast) or 0.0)` is `getD` here:
`or 0.0` is the identity on numeric values. -/
def normRaw (mwf cw cp : ℚ) (idx : Nat) (raw : RawInterval) : Interval :=
  let interval_mw := raw.mw_forecast.getD mwf
  let clamped_mw := max interval_mw 0
  let gl := raw.grid_limit_mw.getD (9 / 10 * clamped_mw)
  { label := raw.label.getD (tLabel idx)
    mw_forecast := clamped_mw
    grid_limit_mw := max gl 0
    curtailment_weight := raw.curtailment_weight.getD cw
    cycle_penalty := raw.cycle_penalty.getD cp
    irradiance_factor := raw.irradiance_factor
    forecast_confidence := raw.forecast_confidence }

/-- The intervals built from `dispatch_intervals` (lines 68-88): non-dict
entries are skipped but still advance the enumeration index. -/
def processedIntervals (a : Args) : List Interval :=
  match a.dispatch_intervals with
  | none => []
  | some l =>
      l.enum.filterMap fun p =>
        p.2.map (normRaw a.mw_forecast a.curtailment_weight a.cycle_penalty p.1)

/-- The single fallback interval (lines 90-105), built from the top-level
arguments when no interval dict was provided. -/
def fallbackInterval (a : Args) : Interval :=
  let interval_mw := a.mw_forecast
  let gl := a.grid_limit_mw.getD (9 / 10 * interval_mw)
  { label := "t0"
    mw_forecast := max interval_mw 0
    grid_limit_mw := max gl 0
    curtailment_weight := a.curtailment_weight
    cycle_penalty := a.cycle_penalty
    irradiance_factor := none
    forecast_confidence := none }

/-- Full interval list of the program (lines 66-105). -/
def intervalsOf (a : Args) : List Interval :=
  let l := processedIntervals a
  if l.isEmpty then [fallbackInterval a] else l

/-- The optimization program `solve_dispatch` constructs: the normalized
interval list plus the battery scalars (lines 107-109). -/
structure Problem where
  intervals : List Interval
  soc_start : ℚ
  bess_capacity_mwh : ℚ
  max_charge_mw : ℚ
  max_discharge_mw : ℚ
deriving DecidableEq

/-- Program construction from raw arguments (lines 58-109). -/
def buildProblem (a : Args) : Problem :=
  let n := normArgs a
  { intervals := intervalsOf n
    soc_start := n.bess_soc * n.bess_capacity_mwh
    bess_capacity_mwh := n.bess_capacity_mwh
    max_charge_mw := n.max_charge_mw
    max_discharge_mw := n.max_discharge_mw }

/-- Values of the decision variables of one interval, as assigned by the
solver: `charge_mw_t`, `discharge_mw_t`, `dispatch_mw_t`,
`curtailment_mw_t`, `soc_mwh_end_t`, `y_charge_t`, `y_discharge_t`. -/
structure IntervalDecision where
  dispatch_mw : ℚ
  charge_mw : ℚ
  discharge_mw : ℚ
  curtailment_mw : ℚ
  soc_mwh_end : ℚ
  y_charge : Bool
  y_discharge : Bool
deriving DecidableEq

instance : Inhabited IntervalDecision := ⟨⟨0, 0, 0, 0, 0, false, false⟩⟩

/-- All constraints `solve_dispatch` posts for interval `t` (variable
bounds from lines 128-135, mutual exclusion from lines 152-155, energy
balance from line 168, SoC evolution from lines 171-174), with `prev`
the previous interval's SoC (or `soc_start` at `t = 0`). -/
def constraintsAt (maxC maxD cap : ℚ) (iv : Interval) (prev : ℚ)
    (d : IntervalDecision) : Prop :=
  0 ≤ d.charge_mw ∧ d.charge_mw ≤ maxC ∧
  0 ≤ d.discharge_mw ∧ d.discharge_mw ≤ maxD ∧
  0 ≤ d.dispatch_mw ∧ d.dispatch_mw ≤ iv.grid_limit_mw ∧
  0 ≤ d.curtailment_mw ∧
  0 ≤ d.soc_mwh_end ∧ d.soc_mwh_end ≤ cap ∧
  boolVal d.y_charge + boolVal d.y_discharge ≤ 1 ∧
  d.charge_mw ≤ maxC * boolVal d.y_charge ∧
  d.discharge_mw ≤ maxD * boolVal d.y_discharge ∧
  d.dispatch_mw + d.charge_mw + d.curtailment_mw = iv.mw_forecast + d.discharge_mw ∧
  d.soc_mwh_end = prev + d.charge_mw - d.discharge_mw

instance (maxC maxD cap : ℚ) (iv : Interval) (prev : ℚ) (d : IntervalDecision) :
    Decidable (constraintsAt maxC maxD cap iv prev d) := by
  unfold constraintsAt; infer_instance

/-- Feasibility of an assignment, one interval after another, threading
the SoC through the recurrence. -/
def feasibleFrom (maxC maxD cap : ℚ) : ℚ → List Interval → List IntervalDecision → Prop
  | _, [], [] => True
  | prev, iv :: ivs, d :: ds =>
      constraintsAt maxC maxD cap iv prev d ∧
      feasibleFrom maxC maxD cap d.soc_mwh_end ivs ds
  | _, [], _ :: _ => False
  | _, _ :: _, [] => False

def decFeasibleFrom (maxC maxD cap : ℚ) :
    (prev : ℚ) → (ivs : List Interval) → (ds : List IntervalDecision) →
    Decidable (feasibleFrom maxC maxD cap prev ivs ds)
  | _, [], [] => isTrue trivial
  | _, [], _ :: _ => isFalse fun h => h
  | _, _ :: _, [] => isFalse fun h => h
  | prev, iv :: ivs, d :: ds =>
      haveI : Decidable (feasibleFrom maxC maxD cap d.soc_mwh_end ivs ds) :=
        decFeasibleFrom maxC maxD cap d.soc_mwh_end ivs ds
      inferInstanceAs (Decidable (constraintsAt maxC maxD cap iv prev d ∧
        feasibleFrom maxC maxD cap d.soc_mwh_end ivs ds))

instance (maxC maxD cap prev : ℚ) (ivs : List Interval) (ds : List IntervalDecision) :
    Decidable (feasibleFrom maxC maxD cap prev ivs ds) :=
  decFeasibleFrom maxC maxD cap prev ivs ds

/-- An assignment satisfies every constraint `solve_dispatch` posted. -/
def Feasible (p : Problem) (s : List IntervalDecision) : Prop :=
  feasibleFrom p.max_charge_mw p.max_discharge_mw p.bess_capacity_mwh
    p.soc_start p.intervals s

instance (p : Problem) (s : List IntervalDecision) : Decidable (Feasible p s) := by
  unfold Feasible; infer_instance

/-- The objective `solve_dispatch` minimizes (lines 176-187):
curtailment weighted by `curtailment_weight`, charge and discharge
weighted by `cycle_penalty`, summed over the horizon. -/
def objective : List Interval → List IntervalDecision → ℚ
  | iv :: ivs, d :: ds =>
      iv.curtailment_weight * d.curtailment_mw +
      iv.cycle_penalty * (d.charge_mw + d.discharge_mw) +
      objective ivs ds
  | _, _ => 0

/-- An assignment is feasible and minimizes the objective. -/
def Optimal (p : Problem) (s : List IntervalDecision) : Prop :=
  Feasible p s ∧ ∀ s', Feasible p s' → objective p.intervals s ≤ objective p.intervals s'

/-- Return statuses of `pywraplp.Solver.Solve`. -/
inductive SolverStatus
  | OPTIMAL
  | FEASIBLE
  | INFEASIBLE
  | UNBOUNDED
  | ABNORMAL
  | NOT_SOLVED
deriving DecidableEq

/-- Outcome of the external CBC solve: the reported status together with
the assignment the solver's variables hold afterwards. -/
structure SolveOutcome where
  status : SolverStatus
  values : List IntervalDecision

/-- Environment of the solve: whether the `ortools` import succeeded
(lines 5-11) and whether `CreateSolver("CBC")` returns a solver
(lines 111-113). -/
structure SolverEnv where
  ortools_available : Bool := true
  cbc_available : Bool := true

/-- Distinguishable error conditions `solve_dispatch` raises:
`ImportError` (line 56), `RuntimeError("Failed to create CBC solver")`
(line 113), `RuntimeError(f"MILP solve failed with status ...")`
(line 191). -/
inductive DispatchError
  | importError
  | solverCreateError
  | solveFailed (status : SolverStatus)
deriving DecidableEq

/-- One entry of the returned `intervals` list (lines 207-223). -/
structure IntervalResult where
  interval : Nat
  label : String
  mw_forecast : ℚ
  grid_limit_mw : ℚ
  curtailment_weight : ℚ
  cycle_penalty : ℚ
  irradiance_factor : Option ℚ
  forecast_confidence : Option ℚ
  dispatch_mw : ℚ
  charge_mw : ℚ
  discharge_mw : ℚ
  curtailment_mw : ℚ
  soc_mwh_end : ℚ
deriving DecidableEq

instance : Inhabited IntervalResult :=
  ⟨⟨0, "", 0, 0, 0, 0, none, none, 0, 0, 0, 0, 0⟩⟩

def mkRow (t : Nat) (iv : Interval) (d : IntervalDecision) : IntervalResult :=
  { interval := t
    label := iv.label
    mw_forecast := iv.mw_forecast
    grid_limit_mw := iv.grid_limit_mw
    curtailment_weight := iv.curtailment_weight
    cycle_penalty := iv.cycle_penalty
    irradiance_factor := iv.irradiance_factor
    forecast_confidence := iv.forecast_confidence
    dispatch_mw := d.dispatch_mw
    charge_mw := d.charge_mw
    discharge_mw := d.discharge_mw
    curtailment_mw := d.curtailment_mw
    soc_mwh_end := d.soc_mwh_end }

/-- The result-collection loop `for t in range(horizon)` (lines 197-223),
pairing the `t`-th interval with the `t`-th solved values. -/
def buildRows (t : Nat) : List Interval → List IntervalDecision → List IntervalResult
  | iv :: ivs, d :: ds => mkRow t iv d :: buildRows (t + 1) ivs ds
  | _, _ => []

/-- The dict `solve_dispatch` returns (lines 228-236). -/
structure DispatchResult where
  dispatch_mw : ℚ
  charge_mw : ℚ
  discharge_mw : ℚ
  curtailment_mw : ℚ
  soc_mwh : ℚ
  total_curtailment_mw : ℚ
  intervals : List IntervalResult
deriving DecidableEq

/-- Projection of the solved values into the returned structure
(lines 193-236).  `headI` and `getLastI` model `interval_results[0]` and
`interval_results[-1]`; the interval list is provably non-empty so the
`Inhabited` default is never reached. -/
def projectResult (ivs : List Interval) (ds : List IntervalDecision) : DispatchResult :=
  let rows := buildRows 0 ivs ds
  { dispatch_mw := rows.headI.dispatch_mw
    charge_mw := rows.headI.charge_mw
    discharge_mw := rows.headI.discharge_mw
    curtailment_mw := rows.headI.curtailment_mw
    soc_mwh := rows.getLastI.soc_mwh_end
    total_curtailment_mw := (rows.map (·.curtailment_mw)).sum
    intervals := rows }

/-- Shallow embedding of `solve_dispatch`: check the `ortools` import,
normalize inputs and build the program, create the solver, solve (the
external solve is the oracle `out`), and either project the solution or
raise a distinguishable error. -/
def solve_dispatch (env : SolverEnv) (a : Args) (out : SolveOutcome) :
    Except DispatchError DispatchResult :=
  if env.ortools_available = false then
    Except.error DispatchError.importError
  else if env.cbc_available = false then
    Except.error DispatchError.solverCreateError
  else if out.status = SolverStatus.OPTIMAL ∨ out.status = SolverStatus.FEASIBLE then
    Except.ok (projectResult (buildProblem a).intervals out.values)
  else
    Except.error (DispatchError.solveFailed out.status)

/-- Curtailment of the `k`-th interval of an assignment (0 outside the
horizon). -/
def curtailAt : List IntervalDecision → Nat → ℚ
  | [], _ => 0
  | d :: _, 0 => d.curtailment_mw
  | _ :: ds, k + 1 => curtailAt ds k

/-- The same program with the `k`-th interval's curtailment weight
replaced by `w2` (everything else fixed). -/
def bumpWeight (p : Problem) (k : Nat) (w2 : ℚ) : Problem :=
  { p with
    intervals :=
      p.intervals.set k { (p.intervals.getD k default) with curtailment_weight := w2 } }

end DispatchCore

namespace AgentTools

open DispatchCore (orQ tLabel)

/-- The `clouds` value found inside `debug_weather_source` in
`_estimate_irradiance_factor` (lines 258-263): a dict carrying `all`, a
plain number, or any other value (which is ignored). -/
inductive CloudsValue
  | asDict (all : Option ℚ)
  | asNum (v : ℚ)
  | other
deriving DecidableEq

/-- The `debug_weather_source` dict (only its `clouds` key is read);
`none` at the use site models an absent or non-dict value. -/
structure DebugWeatherSource where
  clouds : Option CloudsValue := none
deriving DecidableEq

/-- A weather-features dict.  Only the keys the code reads are modelled;
`extra_keys` records whether the dict holds any further keys, so that
Python's emptiness test (`not d` / `d or ...`) is faithful. -/
structure Features where
  mean_temperature : Option ℚ := none
  temperature : Option ℚ := none
  mean_wind_speed : Option ℚ := none
  wind_speed : Option ℚ := none
  cloud_cover : Option ℚ := none
  clouds : Option ℚ := none
  debug_weather_source : Option DebugWeatherSource := none
  plant_rating_mw : Option ℚ := none
  extra_keys : Bool := false
deriving DecidableEq

def Features.isEmpty (f : Features) : Bool :=
  f.mean_temperature.isNone && f.temperature.isNone &&
  f.mean_wind_speed.isNone && f.wind_speed.isNone &&
  f.cloud_cover.isNone && f.clouds.isNone &&
  f.debug_weather_source.isNone && f.plant_rating_mw.isNone &&
  !f.extra_keys

/-- Python `{**a, **b}`: keys of `b` win. -/
def Features.merge (a b : Features) : Features :=
  { mean_temperature := b.mean_temperature <|> a.mean_temperature
    temperature := b.temperature <|> a.temperature
    mean_wind_speed := b.mean_wind_speed <|> a.mean_wind_speed
    wind_speed := b.wind_speed <|> a.wind_speed
    cloud_cover := b.cloud_cover <|> a.cloud_cover
    clouds := b.clouds <|> a.clouds
    debug_weather_source := b.debug_weather_source <|> a.debug_weather_source
    plant_rating_mw := b.plant_rating_mw <|> a.plant_rating_mw
    extra_keys := a.extra_keys || b.extra_keys }

/-- Python `x or d` for a dict value that may be absent: absent (`None`)
or empty-dict values fall back to `d`. -/
def orFeatures (x : Option Features) (d : Features) : Features :=
  match x with
  | none => d
  | some f => if f.isEmpty then d else f

/-- One entry of a forecast's `intervals` / `dispatch_intervals` list. -/
structure SourceInterval where
  label : Option String := none
  mw_forecast : Option ℚ := none
  confidence : Option ℚ := none
  features_used : Option Features := none
  features : Option Features := none
deriving DecidableEq

/-- The forecast-output dict consumed by `prepare_milp_payload` (only
the keys it reads). -/
structure ForecastOutput where
  mw : Option ℚ := none
  confidence : Option ℚ := none
  features_used : Option Features := none
  intervals : Option (List SourceInterval) := none
  dispatch_intervals : Option (List SourceInterval) := none
deriving DecidableEq

/-- The RAG output argument: `prepare_milp_payload` never reads it. -/
structure RagOutput where
  error : Option String := none
deriving DecidableEq

/-- The plant-metadata dict (only the keys the code reads). -/
structure PlantMeta where
  plant_rating_mw : Option ℚ := none
  interconnect_limit_mw : Option ℚ := none
  soc : Option ℚ := none
  capacity_mwh : Option ℚ := none
  max_charge_mw : Option ℚ := none
  max_discharge_mw : Option ℚ := none
deriving DecidableEq

def FORECAST_HORIZON : Nat := 6
def BASE_CURTAILMENT_WEIGHT : ℚ := 1000
def BASE_CYCLE_PENALTY : ℚ := 1

/-- `_default_interval` of `agent_tools.py` (lines 31-37). -/
def default_interval (label : String) : SourceInterval :=
  { label := some label
    mw_forecast := some 0
    confidence := some 0
    features_used := some {} }

/-- Python `a or b` for two lists where `a` may be absent: absent or
empty falls back to `b`. -/
def orList {α : Type} (x : Option (List α)) (d : List α) : List α :=
  match x with
  | none => d
  | some [] => d
  | some l => l

/-- Shallow embedding of `_estimate_irradiance_factor` (lines 243-279). -/
def estimate_irradiance_factor (weather_features : Features)
    (fallback_mw plant_rating : ℚ) : ℚ :=
  let temp := orQ weather_features.mean_temperature (orQ weather_features.temperature 25)
  let wind := orQ weather_features.mean_wind_speed (orQ weather_features.wind_speed 3)
  let cloud_cover : Option ℚ :=
    (weather_features.cloud_cover <|> weather_features.clouds) <|>
      (match weather_features.debug_weather_source with
       | none => none
       | some ds =>
           match ds.clouds with
           | some (CloudsValue.asDict all) => all
           | some (CloudsValue.asNum v) => some v
           | some CloudsValue.other => none
           | none => none)
  let temp_factor := max 0 (min ((temp + 5) / 45) 1)
  let wind_factor := max (1 / 2) (min 1 (1 - 3 / 100 * wind))
  let cloud_factor :=
    match cloud_cover with
    | none => 1
    | some c => 1 - (max 0 (min c 100)) / 100
  let derived := temp_factor * wind_factor * cloud_factor
  let baseline := if 0 < plant_rating then max 0 (min (fallback_mw / plant_rating) 1) else 0
  max 0 (min (max baseline derived) 1)

/-- One dispatch-interval dict built by the loop of
`prepare_milp_payload` (lines 129-168). -/
structure PayloadInterval where
  label : String
  mw_forecast : ℚ
  grid_limit_mw : ℚ
  curtailment_weight : ℚ
  cycle_penalty : ℚ
  irradiance_factor : ℚ
  forecast_confidence : ℚ
  features : Features
deriving DecidableEq

instance : Inhabited PayloadInterval := ⟨⟨"", 0, 0, 0, 0, 0, 0, {}⟩⟩

/-- The payload dict `prepare_milp_payload` returns (lines 170-180). -/
structure MilpPayload where
  mw_forecast : ℚ
  bess_soc : ℚ
  bess_capacity_mwh : ℚ
  max_charge_mw : ℚ
  max_discharge_mw : ℚ
  dispatch_intervals : List PayloadInterval
  interconnect_limit_mw : ℚ
  plant_rating_mw : ℚ
  forecast_confidence : ℚ
deriving DecidableEq

/-- Body of the horizon loop (lines 130-168) for index `idx` applied to
the selected source interval. -/
def buildPayloadInterval (mw_forecast confidence : ℚ) (features_used : Features)
    (weather_features : Option Features) (plant_rating interconnect_limit : ℚ)
    (idx : Nat) (source_interval : SourceInterval) : PayloadInterval :=
  let interval_mw := orQ source_interval.mw_forecast mw_forecast
  let interval_conf := max 0 (min (orQ source_interval.confidence confidence) 1)
  let interval_features0 :=
    match source_interval.features_used with
    | some fu => fu
    | none => orFeatures source_interval.features features_used
  let interval_features :=
    if interval_features0.isEmpty then
      features_used.merge (weather_features.getD {})
    else interval_features0
  let irradiance_factor :=
    estimate_irradiance_factor interval_features interval_mw plant_rating
  let dynamic_grid_limit := min interconnect_limit (irradiance_factor * plant_rating)
  { label := source_interval.label.getD (tLabel idx)
    mw_forecast := interval_mw
    grid_limit_mw := max dynamic_grid_limit 0
    curtailment_weight := max 10 (interval_conf * BASE_CURTAILMENT_WEIGHT)
    cycle_penalty := max (1 / 20) ((1 - interval_conf) * BASE_CYCLE_PENALTY)
    irradiance_factor := irradiance_factor
    forecast_confidence := interval_conf
    features := interval_features }

/-- The effective source list (line 124):
`forecast_output.get("intervals") or forecast_output.get("dispatch_intervals") or []`. -/
def effectiveSources (f : ForecastOutput) : List SourceInterval :=
  orList f.intervals (orList f.dispatch_intervals [])

instance : Inhabited SourceInterval := ⟨{}⟩

/-- Selection of the source interval for index `idx` (lines 130-134):
the `idx`-th entry when it exists, else the last entry repeated. -/
def selectSource (srcs : List SourceInterval) (idx : Nat) : SourceInterval :=
  if idx < srcs.length then srcs.getD idx default else srcs.getLastD default

/-- Line 105: `mw_forecast = float(forecast_output.get("mw", 0.0) or 0.0)`. -/
def payloadMwForecast (f : ForecastOutput) : ℚ := orQ f.mw 0

/-- Line 106: `features_used = forecast_output.get("features_used") or {}`. -/
def payloadFeaturesUsed (f : ForecastOutput) : Features :=
  orFeatures f.features_used {}

/-- Lines 107-108: confidence defaulted through `or 0.5` then clamped. -/
def payloadConfidence (f : ForecastOutput) : ℚ :=
  max 0 (min (orQ f.confidence (1 / 2)) 1)

/-- Lines 110-114: plant rating from plant metadata, forecast features,
or the larger of forecast and capacity. -/
def payloadPlantRating (f : ForecastOutput) (p : PlantMeta) : ℚ :=
  orQ p.plant_rating_mw
    (orQ (payloadFeaturesUsed f).plant_rating_mw
      (max (payloadMwForecast f) (p.capacity_mwh.getD 50)))

/-- Lines 115-117: interconnect limit defaulting to the plant rating. -/
def payloadInterconnect (f : ForecastOutput) (p : PlantMeta) : ℚ :=
  orQ p.interconnect_limit_mw (payloadPlantRating f p)

/-- Lines 124-126: the sources list, synthesized as six default
intervals when the forecast supplies none. -/
def paddedSources (f : ForecastOutput) : List SourceInterval :=
  if (effectiveSources f).isEmpty then
    (List.range FORECAST_HORIZON).map fun idx => default_interval (tLabel idx)
  else effectiveSources f

/-- The loop body applied with the context values of the enclosing
`prepare_milp_payload` call. -/
def payloadIntervalAt (f : ForecastOutput) (p : PlantMeta) (w : Option Features)
    (idx : Nat) (src : SourceInterval) : PayloadInterval :=
  buildPayloadInterval (payloadMwForecast f) (payloadConfidence f)
    (payloadFeaturesUsed f) w (payloadPlantRating f p) (payloadInterconnect f p)
    idx src

/-- Shallow embedding of `prepare_milp_payload` (lines 94-182). -/
def prepare_milp_payload (forecast_output : ForecastOutput) (rag_output : RagOutput)
    (plant_meta : PlantMeta) (weather_features : Option Features) : MilpPayload :=
  let dispatch_intervals :=
    (List.range FORECAST_HORIZON).map fun idx =>
      payloadIntervalAt forecast_output plant_meta weather_features idx
        (selectSource (paddedSources forecast_output) idx)
  { mw_forecast := (dispatch_intervals.headI).mw_forecast
    bess_soc := plant_meta.soc.getD (35 / 100)
    bess_capacity_mwh := plant_meta.capacity_mwh.getD 50
    max_charge_mw := plant_meta.max_charge_mw.getD 5
    max_discharge_mw := plant_meta.max_discharge_mw.getD 5
    dispatch_intervals := dispatch_intervals
    interconnect_limit_mw := payloadInterconnect forecast_output plant_meta
    plant_rating_mw := payloadPlantRating forecast_output plant_meta
    forecast_confidence := payloadConfidence forecast_output }

end AgentTools

namespace DispatchCore

lemma getLastI_eq_getLastD {α : Type} [Inhabited α] (l : List α) :
    l.getLastI = l.getLastD default := by
  rw [List.getLastI_eq_getLast?, List.getLastD_eq_getLast?]
  cases h : l.getLast? <;> simp [Option.iget]

lemma intervalsOf_ne_nil (a : Args) : intervalsOf a ≠ [] := by
  by_cases h : (processedIntervals a).isEmpty = true
  · simp [intervalsOf, h]
  · simp only [intervalsOf, h, if_false, Bool.false_eq_true]
    exact fun hc => h (List.isEmpty_iff.2 hc)

/-- The invalid request used to exhibit the absence of input validation:
an empty horizon together with negative capacity and negative
charge/discharge limits. -/
def args_invalid : Args :=
  { mw_forecast := 100
    bess_capacity_mwh := -5
    max_charge_mw := -3
    max_discharge_mw := -2
    grid_limit_mw := some 90
    dispatch_intervals := some [] }

/-- A solver outcome for the invalid request: curtail the excess. -/
def out_invalid : SolveOutcome :=
  ⟨SolverStatus.OPTIMAL, [⟨90, 0, 0, 10, 0, false, false⟩]⟩

/-- The program `solve_dispatch` constructs from `args_invalid`. -/
def p_invalid : Problem :=
  { intervals := [{ label := "t0", mw_forecast := 100, grid_limit_mw := 90,
                    curtailment_weight := 1000, cycle_penalty := 1 }]
    soc_start := 0
    bess_capacity_mwh := 0
    max_charge_mw := 0
    max_discharge_mw := 0 }

lemma buildProblem_args_invalid : buildProblem args_invalid = p_invalid := by
  simp only [buildProblem, normArgs, args_invalid, intervalsOf, processedIntervals,
    fallbackInterval, p_invalid, List.enum, List.enumFrom, List.filterMap,
    List.isEmpty_nil, if_true]
  norm_num [max_def, min_def]

/-- C3 (counterexample): on an invalid request — empty horizon, negative
capacity, negative charge and discharge limits — `solve_dispatch` raises
no validation error: it constructs a one-interval program (clamping the
negative scalars to zero) and proceeds to solve, returning a solution. -/
theorem C3_counterexample :
    (solve_dispatch {} args_invalid out_invalid).isOk = true ∧
    (buildProblem args_invalid).intervals.length = 1 ∧
    (buildProblem args_invalid).bess_capacity_mwh = 0 ∧
    (buildProblem args_invalid).max_charge_mw = 0 ∧
    Feasible (buildProblem args_invalid) out_invalid.values := by
  have hp := buildProblem_args_invalid
  refine ⟨?_, ?_, ?_, ?_, ?_⟩
  · rfl
  · rw [hp]; rfl
  · rw [hp]; rfl
  · rw [hp]; rfl
  · rw [hp]
    simp only [Feasible, p_invalid, out_invalid, feasibleFrom, constraintsAt, boolVal]
    norm_num

/-- C3 (amended): invalid inputs are normalized rather than rejected:
negative capacity and charge/discharge limits are clamped to zero, and
an empty (or absent) horizon falls back to a synthesized single
interval, so the constructed program always has a non-empty horizon. -/
theorem C3_amended_clamping (a : Args) :
    (buildProblem a).bess_capacity_mwh = max a.bess_capacity_mwh 0 ∧
    (buildProblem a).max_charge_mw = max a.max_charge_mw 0 ∧
    (buildProblem a).max_discharge_mw = max a.max_discharge_mw 0 ∧
    0 < (buildProblem a).intervals.length := by
  refine ⟨rfl, rfl, rfl, ?_⟩
  exact List.length_pos.2 (intervalsOf_ne_nil (normArgs a))

/-- C4: when the `ortools` import failed, when the CBC solver cannot be
created, or when the solve reports any status other than OPTIMAL or
FEASIBLE (in particular INFEASIBLE), `solve_dispatch` raises the
corresponding distinguishable error and never returns a schedule. -/
theorem C4_failure_semantics (env : SolverEnv) (a : Args) (out : SolveOutcome) :
    (env.ortools_available = false →
      solve_dispatch env a out = Except.error DispatchError.importError) ∧
    (env.ortools_available = true → env.cbc_available = false →
      solve_dispatch env a out = Except.error DispatchError.solverCreateError) ∧
    (env.ortools_available = true → env.cbc_available = true →
      out.status ≠ SolverStatus.OPTIMAL → out.status ≠ SolverStatus.FEASIBLE →
      solve_dispatch env a out = Except.error (DispatchError.solveFailed out.status)) := by
  refine ⟨fun h1 => ?_, fun h1 h2 => ?_, fun h1 h2 h3 h4 => ?_⟩ <;>
    simp [solve_dispatch, h1]
  · simp [h2]
  · simp [h2, h3, h4]

/-- C4 (witness): with CBC reporting INFEASIBLE on a concrete request,
`solve_dispatch` returns the distinguishable solve-failed error. -/
theorem C4_failure_semantics_witness :
    solve_dispatch {} { mw_forecast := 100 } ⟨SolverStatus.INFEASIBLE, []⟩
      = Except.error (DispatchError.solveFailed SolverStatus.INFEASIBLE) :=
  (C4_failure_semantics {} { mw_forecast := 100 } ⟨SolverStatus.INFEASIBLE, []⟩).2.2
    rfl rfl (by decide) (by decide)

lemma ok_eq_project (env : SolverEnv) (a : Args) (out : SolveOutcome)
    (r : DispatchResult) (hok : solve_dispatch env a out = Except.ok r) :
    r = projectResult (buildProblem a).intervals out.values := by
  unfold solve_dispatch at hok
  by_cases h1 : env.ortools_available = false
  · rw [if_pos h1] at hok; exact absurd hok (by simp)
  · rw [if_neg h1] at hok
    by_cases h2 : env.cbc_available = false
    · rw [if_pos h2] at hok; exact absurd hok (by simp)
    · rw [if_neg h2] at hok
      by_cases h3 : out.status = SolverStatus.OPTIMAL ∨ out.status = SolverStatus.FEASIBLE
      · rw [if_pos h3] at hok
        exact (Except.ok.inj hok).symm
      · rw [if_neg h3] at hok; exact absurd hok (by simp)

lemma feasible_rows_pointwise (maxC maxD cap : ℚ) :
    ∀ (ivs : List Interval) (ds : List IntervalDecision) (prev : ℚ) (t : Nat),
      feasibleFrom maxC maxD cap prev ivs ds →
      ∀ row ∈ buildRows t ivs ds,
        (row.dispatch_mw + row.charge_mw + row.curtailment_mw
            = row.mw_forecast + row.discharge_mw) ∧
        min row.charge_mw row.discharge_mw = 0 ∧
        0 ≤ row.soc_mwh_end ∧ row.soc_mwh_end ≤ cap ∧
        0 ≤ row.dispatch_mw ∧ row.dispatch_mw ≤ row.grid_limit_mw ∧
        0 ≤ row.charge_mw ∧ row.charge_mw ≤ maxC ∧
        0 ≤ row.discharge_mw ∧ row.discharge_mw ≤ maxD ∧
        0 ≤ row.curtailment_mw := by
  intro ivs
  induction ivs with
  | nil =>
      intro ds prev t hf row hrow
      cases ds with
      | nil => simp [buildRows] at hrow
      | cons d ds => exact hf.elim
  | cons iv ivs ih =>
      intro ds prev t hf row hrow
      cases ds with
      | nil => exact hf.elim
      | cons d ds =>
          obtain ⟨hc, hrest⟩ := hf
          rcases List.mem_cons.1 hrow with hhead | htail
          · obtain ⟨h1, h2, h3, h4, h5, h6, h7, h8, h9, h10, h11, h12, h13, h14⟩ := hc
            have hmin : min d.charge_mw d.discharge_mw = 0 := by
              cases hyc : d.y_charge with
              | false =>
                  have hch : d.charge_mw ≤ 0 := by simpa [boolVal, hyc] using h11
                  have hc0 : d.charge_mw = 0 := le_antisymm hch h1
                  rw [hc0]; exact min_eq_left h3
              | true =>
                  have hyd : d.y_discharge = false := by
                    cases hyd : d.y_discharge with
                    | false => rfl
                    | true => exfalso; rw [hyc, hyd] at h10; norm_num [boolVal] at h10
                  have hdis : d.discharge_mw ≤ 0 := by simpa [boolVal, hyd] using h12
                  have hd0 : d.discharge_mw = 0 := le_antisymm hdis h3
                  rw [hd0]; exact min_eq_right h1
            subst hhead
            exact ⟨h13, hmin, h8, h9, h5, h6, h1, h2, h3, h4, h7⟩
          · exact ih ds d.soc_mwh_end (t + 1) hrest row htail

lemma feasible_rows_soc_rec (maxC maxD cap : ℚ) :
    ∀ (ivs : List Interval) (ds : List IntervalDecision) (prev : ℚ) (t : Nat),
      feasibleFrom maxC maxD cap prev ivs ds →
      ∀ j, j < (buildRows t ivs ds).length →
        ((buildRows t ivs ds).getD j default).soc_mwh_end
          = (if j = 0 then prev
             else ((buildRows t ivs ds).getD (j - 1) default).soc_mwh_end)
            + ((buildRows t ivs ds).getD j default).charge_mw
            - ((buildRows t ivs ds).getD j default).discharge_mw := by
  intro ivs
  induction ivs with
  | nil =>
      intro ds prev t hf j hj
      cases ds with
      | nil => simp [buildRows] at hj
      | cons d ds => exact hf.elim
  | cons iv ivs ih =>
      intro ds prev t hf j hj
      cases ds with
      | nil => exact hf.elim
      | cons d ds =>
          obtain ⟨hc, hrest⟩ := hf
          obtain ⟨_, _, _, _, _, _, _, _, _, _, _, _, _, h14⟩ := hc
          match j with
          | 0 => simpa [buildRows, mkRow] using h14
          | Nat.succ j =>
              have hj' : j < (buildRows (t + 1) ivs ds).length := by
                simpa [buildRows] using hj
              have hrec := ih ds d.soc_mwh_end (t + 1) hrest j hj'
              cases j with
              | zero => simpa [buildRows, mkRow] using hrec
              | succ k => simpa [buildRows] using hrec

lemma buildRows_length :
    ∀ (t : Nat) (ivs : List Interval) (ds : List IntervalDecision),
      (buildRows t ivs ds).length = min ivs.length ds.length := by
  intro t ivs
  induction ivs generalizing t with
  | nil => intro ds; cases ds <;> simp [buildRows]
  | cons iv ivs ih =>
      intro ds
      cases ds with
      | nil => simp [buildRows]
      | cons d ds =>
          simp [buildRows, ih (t + 1) ds, Nat.succ_min_succ]

lemma headI_eq_getD {α : Type} [Inhabited α] (l : List α) :
    l.headI = l.getD 0 default := by
  cases l <;> rfl

/-- C1: every interval of every solution returned by `solve_dispatch`
satisfies the energy balance `dispatch_mw + charge_mw + curtailment_mw =
mw_forecast + discharge_mw` exactly (the external solver's contract —
its assignment satisfies the constraints the code posted — is the
`Feasible` hypothesis; over `ℚ` the balance is exact). -/
theorem C1_energy_balance (env : SolverEnv) (a : Args) (out : SolveOutcome)
    (r : DispatchResult) (hok : solve_dispatch env a out = Except.ok r)
    (hfeas : Feasible (buildProblem a) out.values) :
    ∀ row ∈ r.intervals,
      row.dispatch_mw + row.charge_mw + row.curtailment_mw
        = row.mw_forecast + row.discharge_mw := by
  intro row hrow
  rw [ok_eq_project env a out r hok] at hrow
  simp only [projectResult] at hrow
  exact (feasible_rows_pointwise _ _ _ _ _ _ _ hfeas row hrow).1

/-- C2: in every solution returned by `solve_dispatch`, no interval both
charges and discharges: `min charge_mw discharge_mw = 0`, a consequence
of the boolean indicator constraints the code posts per interval. -/
theorem C2_mutual_exclusion (env : SolverEnv) (a : Args) (out : SolveOutcome)
    (r : DispatchResult) (hok : solve_dispatch env a out = Except.ok r)
    (hfeas : Feasible (buildProblem a) out.values) :
    ∀ row ∈ r.intervals, min row.charge_mw row.discharge_mw = 0 := by
  intro row hrow
  rw [ok_eq_project env a out r hok] at hrow
  simp only [projectResult] at hrow
  exact (feasible_rows_pointwise _ _ _ _ _ _ _ hfeas row hrow).2.1

/-- C5: in every solution returned by `solve_dispatch` (with an in-range
battery state, `0 ≤ bess_soc ≤ 1` and `0 ≤ bess_capacity_mwh`), every
interval's end SoC lies in `[0, bess_capacity_mwh]` and obeys the
recurrence `soc_mwh_end[t] = soc_mwh_end[t-1] + charge_mw[t] -
discharge_mw[t]` with initial energy `bess_soc * bess_capacity_mwh`. -/
theorem C5_soc_invariants (env : SolverEnv) (a : Args) (out : SolveOutcome)
    (r : DispatchResult) (hok : solve_dispatch env a out = Except.ok r)
    (hfeas : Feasible (buildProblem a) out.values)
    (hsoc0 : 0 ≤ a.bess_soc) (hsoc1 : a.bess_soc ≤ 1)
    (hcap : 0 ≤ a.bess_capacity_mwh) :
    (∀ row ∈ r.intervals,
      0 ≤ row.soc_mwh_end ∧ row.soc_mwh_end ≤ a.bess_capacity_mwh) ∧
    (∀ j, j < r.intervals.length →
      (r.intervals.getD j default).soc_mwh_end
        = (if j = 0 then a.bess_soc * a.bess_capacity_mwh
           else (r.intervals.getD (j - 1) default).soc_mwh_end)
          + (r.intervals.getD j default).charge_mw
          - (r.intervals.getD j default).discharge_mw) := by
  have hcap' : (buildProblem a).bess_capacity_mwh = a.bess_capacity_mwh := by
    simp [buildProblem, normArgs, max_eq_left hcap]
  have hsoc' : (buildProblem a).soc_start = a.bess_soc * a.bess_capacity_mwh := by
    simp [buildProblem, normArgs, min_eq_left hsoc1, max_eq_left hsoc0, max_eq_left hcap]
  have hr := ok_eq_project env a out r hok
  constructor
  · intro row hrow
    rw [hr] at hrow
    simp only [projectResult] at hrow
    have h := feasible_rows_pointwise _ _ _ _ _ _ _ hfeas row hrow
    exact ⟨h.2.2.1, hcap' ▸ h.2.2.2.1⟩
  · intro j hj
    rw [hr] at hj ⊢
    simp only [projectResult] at hj ⊢
    have h := feasible_rows_soc_rec _ _ _ _ _ _ 0 hfeas j hj
    rw [h, hsoc']

/-- C7: every successful `solve_dispatch` returns the full per-interval
list (one row per interval of the program), `total_curtailment_mw` equal
to the sum of the rows' `curtailment_mw`, the final SoC (the code's
`soc_mwh` key, the spec's `final_soc_mwh`) equal to the last row's
`soc_mwh_end`, and top-level decisions equal to the first row's. -/
theorem C7_result_projection (env : SolverEnv) (a : Args) (out : SolveOutcome)
    (r : DispatchResult) (hok : solve_dispatch env a out = Except.ok r)
    (hlen : out.values.length = (buildProblem a).intervals.length) :
    r.intervals.length = (buildProblem a).intervals.length ∧
    r.total_curtailment_mw = (r.intervals.map (fun row => row.curtailment_mw)).sum ∧
    r.soc_mwh = (r.intervals.getLastD default).soc_mwh_end ∧
    r.dispatch_mw = (r.intervals.getD 0 default).dispatch_mw ∧
    r.charge_mw = (r.intervals.getD 0 default).charge_mw ∧
    r.discharge_mw = (r.intervals.getD 0 default).discharge_mw ∧
    r.curtailment_mw = (r.intervals.getD 0 default).curtailment_mw := by
  have hr := ok_eq_project env a out r hok
  subst hr
  simp only [projectResult]
  refine ⟨?_, trivial, ?_, ?_, ?_, ?_, ?_⟩
  · rw [buildRows_length, hlen, min_self]
  · rw [getLastI_eq_getLastD]
  · rw [headI_eq_getD]
  · rw [headI_eq_getD]
  · rw [headI_eq_getD]
  · rw [headI_eq_getD]

lemma processedIntervals_eq_nil (a : Args)
    (hnone : ∀ l, a.dispatch_intervals = some l → ∀ e ∈ l, e = none) :
    processedIntervals a = [] := by
  unfold processedIntervals
  cases h : a.dispatch_intervals with
  | none => rfl
  | some l =>
      apply List.filterMap_eq_nil_iff.2
      intro p hp
      have hmem : p.2 ∈ l := by
        have := List.mem_map_of_mem Prod.snd hp
        rwa [List.enum_map_snd] at this
      rw [hnone l h p.2 hmem]
      rfl

/-- The benchmark single-interval request of spec §8 item 5: forecast
100 MW, grid limit 90 MW, all other parameters left at their source
defaults (capacity 50 MWh, SoC 0.35, charge/discharge limit 5 MW,
curtailment weight 1000, cycle penalty 1, no interval list). -/
def args6 : Args := { mw_forecast := 100, grid_limit_mw := some 90 }

/-- The single-interval program with forecast 100, grid limit 90,
initial energy 17.5 MWh, capacity 50, limits 5/5, cycle penalty 1 and
curtailment weight `w`. -/
def p6 (w : ℚ) : Problem :=
  { intervals := [{ label := "t0", mw_forecast := 100, grid_limit_mw := 90,
                    curtailment_weight := w, cycle_penalty := 1 }]
    soc_start := 35 / 2
    bess_capacity_mwh := 50
    max_charge_mw := 5
    max_discharge_mw := 5 }

lemma buildProblem_args6 : buildProblem args6 = p6 1000 := by
  simp only [buildProblem, normArgs, args6, intervalsOf, processedIntervals,
    fallbackInterval, p6]
  norm_num [max_def, min_def]

/-- The expected optimum of the benchmark instance: dispatch 90, charge
5, discharge 0, curtail 5, end SoC 22.5 MWh, charging indicator on. -/
def d6 : IntervalDecision :=
  { dispatch_mw := 90, charge_mw := 5, discharge_mw := 0, curtailment_mw := 5,
    soc_mwh_end := 45 / 2, y_charge := true, y_discharge := false }

def out6 : SolveOutcome := ⟨SolverStatus.OPTIMAL, [d6]⟩

def res6 : DispatchResult := projectResult (buildProblem args6).intervals out6.values

lemma feasible_p6_iff (w : ℚ) (s : List IntervalDecision) :
    Feasible (p6 w) s ↔
      ∃ d, s = [d] ∧
        constraintsAt 5 5 50 ((p6 w).intervals.getD 0 default) (35 / 2) d := by
  constructor
  · intro hs
    match s with
    | [] => exact hs.elim
    | [d] => exact ⟨d, rfl, hs.1⟩
    | d :: d' :: tl => exact hs.2.elim
  · rintro ⟨d, rfl, hd⟩
    exact ⟨hd, trivial⟩

lemma feasible6 : Feasible (buildProblem args6) out6.values := by
  rw [buildProblem_args6]
  refine (feasible_p6_iff 1000 out6.values).2 ⟨d6, rfl, ?_⟩
  simp only [constraintsAt, p6, d6, boolVal]
  norm_num

lemma objective_p6 (w : ℚ) (d : IntervalDecision) :
    objective (p6 w).intervals [d] =
      w * d.curtailment_mw + (d.charge_mw + d.discharge_mw) := by
  simp [objective, p6]

/-- For every curtailment weight above the cycle penalty, `[d6]` is the
unique optimum of the benchmark program `p6 w`. -/
lemma optimal_p6 (w : ℚ) (hw : 1 < w) : Optimal (p6 w) [d6] := by
  constructor
  · refine (feasible_p6_iff w [d6]).2 ⟨d6, rfl, ?_⟩
    simp only [constraintsAt, p6, d6, boolVal]
    norm_num
  · intro s hs
    obtain ⟨d, rfl, hd⟩ := (feasible_p6_iff w s).1 hs
    obtain ⟨h1, h2, h3, h4, h5, h6, h7, h8, h9, h10, h11, h12, h13, h14⟩ := hd
    rw [objective_p6, objective_p6]
    simp only [p6, d6] at h6 h13 ⊢
    simp only [List.getD_cons_zero] at h6 h13
    have hcurt : d.curtailment_mw
        = 100 + d.discharge_mw - d.dispatch_mw - d.charge_mw := by linarith
    rw [hcurt]
    have k1 : 0 ≤ w * (90 - d.dispatch_mw) :=
      mul_nonneg (by linarith) (by linarith)
    have k2 : 0 ≤ (w + 1) * d.discharge_mw :=
      mul_nonneg (by linarith) h3
    have k3 : 0 ≤ (w - 1) * (5 - d.charge_mw) :=
      mul_nonneg (by linarith) (by linarith)
    nlinarith [k1, k2, k3]

lemma optimal_p6_unique (w : ℚ) (hw : 1 < w) (s : List IntervalDecision)
    (hs : Optimal (p6 w) s) : s = [d6] := by
  obtain ⟨hfeas, hmin⟩ := hs
  obtain ⟨d, rfl, hd⟩ := (feasible_p6_iff w s).1 hfeas
  have hle := hmin [d6] (optimal_p6 w hw).1
  obtain ⟨h1, h2, h3, h4, h5, h6, h7, h8, h9, h10, h11, h12, h13, h14⟩ := hd
  rw [objective_p6, objective_p6] at hle
  simp only [p6, d6] at h6 h13 hle
  simp only [List.getD_cons_zero] at h6 h13
  have hcurt : d.curtailment_mw
      = 100 + d.discharge_mw - d.dispatch_mw - d.charge_mw := by linarith
  rw [hcurt] at hle
  have k1 : 0 ≤ w * (90 - d.dispatch_mw) :=
    mul_nonneg (by linarith) (by linarith)
  have k2 : 0 ≤ (w + 1) * d.discharge_mw :=
    mul_nonneg (by linarith) h3
  have k3 : 0 ≤ (w - 1) * (5 - d.charge_mw) :=
    mul_nonneg (by linarith) (by linarith)
  have hdisp : d.dispatch_mw = 90 := by nlinarith [k1, k2, k3]
  have hdis : d.discharge_mw = 0 := by nlinarith [k1, k2, k3]
  have hch : d.charge_mw = 5 := by nlinarith [k1, k2, k3]
  have hcu : d.curtailment_mw = 5 := by rw [hcurt, hdisp, hdis, hch]; norm_num
  have hsoc : d.soc_mwh_end = 45 / 2 := by rw [h14, hch, hdis]; norm_num
  have hyc : d.y_charge = true := by
    cases hyc : d.y_charge with
    | true => rfl
    | false => rw [hyc] at h11; simp [boolVal, hch] at h11; norm_num at h11
  have hyd : d.y_discharge = false := by
    cases hyd : d.y_discharge with
    | false => rfl
    | true => rw [hyc, hyd] at h10; norm_num [boolVal] at h10
  obtain ⟨dd, dc, ddis, dcu, dsoc, dyc, dyd⟩ := d
  simp only at hdisp hch hdis hcu hsoc hyc hyd
  simp [d6, hdisp, hch, hdis, hcu, hsoc, hyc, hyd]

/-- The normalized interval of the benchmark instance. -/
def iv6 : Interval :=
  { label := "t0", mw_forecast := 100, grid_limit_mw := 90,
    curtailment_weight := 1000, cycle_penalty := 1 }

lemma res6_intervals : res6.intervals = [mkRow 0 iv6 d6] := by
  unfold res6
  rw [buildProblem_args6]
  rfl

/-- C6: on the benchmark single-interval instance (forecast 100, grid
limit 90, capacity 50, SoC 0.35, charge/discharge limits 5, curtailment
weight 1000, cycle penalty 1), the optimal solution returned by
`solve_dispatch` is dispatch 90, charge 5, discharge 0, curtailment 5
and end SoC 22.5 (the optimum is unique, so any optimal solver
assignment yields exactly these values). -/
theorem C6_benchmark_instance (out : SolveOutcome) (r : DispatchResult)
    (hok : solve_dispatch {} args6 out = Except.ok r)
    (hopt : Optimal (buildProblem args6) out.values) :
    r.dispatch_mw = 90 ∧ r.charge_mw = 5 ∧ r.discharge_mw = 0 ∧
    r.curtailment_mw = 5 ∧ r.soc_mwh = 45 / 2 := by
  rw [buildProblem_args6] at hopt
  have hval := optimal_p6_unique 1000 (by norm_num) out.values hopt
  have hr := ok_eq_project {} args6 out r hok
  subst hr
  rw [buildProblem_args6, hval]
  refine ⟨rfl, rfl, rfl, rfl, rfl⟩

/-- C6 (witness): the optimal assignment `[d6]` fed through
`solve_dispatch` on the benchmark arguments produces dispatch 90. -/
theorem C6_benchmark_instance_witness :
    Optimal (buildProblem args6) out6.values ∧ res6.dispatch_mw = 90 := by
  have hopt : Optimal (buildProblem args6) out6.values := by
    rw [buildProblem_args6]
    exact optimal_p6 1000 (by norm_num)
  exact ⟨hopt, (C6_benchmark_instance out6 res6 rfl hopt).1⟩

lemma feasibleFrom_set_cw (maxC maxD cap w2 : ℚ) :
    ∀ (ivs : List Interval) (k : Nat) (iv1 : Interval), ivs[k]? = some iv1 →
      ∀ (prev : ℚ) (ds : List IntervalDecision),
        feasibleFrom maxC maxD cap prev
            (ivs.set k { iv1 with curtailment_weight := w2 }) ds
          ↔ feasibleFrom maxC maxD cap prev ivs ds := by
  intro ivs
  induction ivs with
  | nil => intro k iv1 hk; simp at hk
  | cons iv ivs ih =>
      intro k iv1 hk prev ds
      cases k with
      | zero =>
          have hiv : iv = iv1 := by simpa using hk
          subst hiv
          rw [List.set_cons_zero]
          cases ds with
          | nil => exact Iff.rfl
          | cons d ds => exact Iff.rfl
      | succ k =>
          rw [List.set_cons_succ]
          have hk' : ivs[k]? = some iv1 := by simpa using hk
          cases ds with
          | nil => exact Iff.rfl
          | cons d ds =>
              exact and_congr Iff.rfl (ih k iv1 hk' d.soc_mwh_end ds)

lemma objective_set_cw (w2 : ℚ) :
    ∀ (ivs : List Interval) (k : Nat) (iv1 : Interval), ivs[k]? = some iv1 →
      ∀ ds, objective (ivs.set k { iv1 with curtailment_weight := w2 }) ds
          = objective ivs ds + (w2 - iv1.curtailment_weight) * curtailAt ds k := by
  intro ivs
  induction ivs with
  | nil => intro k iv1 hk; simp at hk
  | cons iv ivs ih =>
      intro k iv1 hk ds
      cases k with
      | zero =>
          have hiv : iv = iv1 := by simpa using hk
          subst hiv
          rw [List.set_cons_zero]
          cases ds with
          | nil => simp [objective, curtailAt]
          | cons d ds =>
              simp only [objective, curtailAt]
              ring
      | succ k =>
          rw [List.set_cons_succ]
          have hk' : ivs[k]? = some iv1 := by simpa using hk
          cases ds with
          | nil => simp [objective, curtailAt]
          | cons d ds =>
              simp only [objective, curtailAt, ih k iv1 hk' ds]
              ring

lemma feasible_bumpWeight (p : Problem) (k : Nat) (iv1 : Interval) (w2 : ℚ)
    (hk : p.intervals[k]? = some iv1) (s : List IntervalDecision) :
    Feasible (bumpWeight p k w2) s ↔ Feasible p s := by
  have hgetD : p.intervals.getD k default = iv1 := by
    rw [List.getD_eq_getElem?_getD, hk]; rfl
  unfold Feasible bumpWeight
  dsimp only
  rw [hgetD]
  exact feasibleFrom_set_cw _ _ _ _ p.intervals k iv1 hk p.soc_start s

lemma objective_bumpWeight (p : Problem) (k : Nat) (iv1 : Interval) (w2 : ℚ)
    (hk : p.intervals[k]? = some iv1) (s : List IntervalDecision) :
    objective (bumpWeight p k w2).intervals s
      = objective p.intervals s + (w2 - iv1.curtailment_weight) * curtailAt s k := by
  have hgetD : p.intervals.getD k default = iv1 := by
    rw [List.getD_eq_getElem?_getD, hk]; rfl
  unfold bumpWeight
  dsimp only
  rw [hgetD]
  exact objective_set_cw w2 p.intervals k iv1 hk s

/-- C8: raising the curtailment weight of one interval while holding
every other input fixed never increases that interval's optimal
curtailment: for any optimal solutions of the original and of the
weight-raised program, the latter's curtailment at that interval is at
most the former's (the feasible region does not depend on the weights,
and the exchange argument on the two optimality facts closes it). -/
theorem C8_curtailment_weight_antitone (p : Problem) (k : Nat) (iv1 : Interval)
    (w2 : ℚ) (s1 s2 : List IntervalDecision)
    (hk : p.intervals[k]? = some iv1)
    (hw : iv1.curtailment_weight < w2)
    (h1 : Optimal p s1)
    (h2 : Optimal (bumpWeight p k w2) s2) :
    curtailAt s2 k ≤ curtailAt s1 k := by
  have hf2 : Feasible p s2 := (feasible_bumpWeight p k iv1 w2 hk s2).1 h2.1
  have hf1 : Feasible (bumpWeight p k w2) s1 :=
    (feasible_bumpWeight p k iv1 w2 hk s1).2 h1.1
  have ha := h1.2 s2 hf2
  have hb := h2.2 s1 hf1
  rw [objective_bumpWeight p k iv1 w2 hk s1,
      objective_bumpWeight p k iv1 w2 hk s2] at hb
  have hpos : 0 < w2 - iv1.curtailment_weight := by linarith
  have hmul : (w2 - iv1.curtailment_weight) * curtailAt s2 k
      ≤ (w2 - iv1.curtailment_weight) * curtailAt s1 k := by linarith
  exact le_of_mul_le_mul_left hmul hpos

lemma bump_p6 : bumpWeight (p6 1000) 0 1001 = p6 1001 := by
  simp [bumpWeight, p6]

/-- C8 (witness): raising the benchmark interval's weight from 1000 to
1001 leaves both programs with the unique optimum `[d6]`, whose
curtailment 5 indeed did not increase. -/
theorem C8_curtailment_weight_antitone_witness :
    curtailAt [d6] 0 = 5 ∧ curtailAt [d6] 0 ≤ curtailAt [d6] 0 := by
  have hk : (p6 1000).intervals[0]? = some iv6 := rfl
  have h2 : Optimal (bumpWeight (p6 1000) 0 1001) [d6] := by
    rw [bump_p6]
    exact optimal_p6 1001 (by norm_num)
  refine ⟨by norm_num [curtailAt, d6], ?_⟩
  exact C8_curtailment_weight_antitone (p6 1000) 0 iv6 1001 [d6] [d6] hk
    (by norm_num [iv6]) (optimal_p6 1000 (by norm_num)) h2

/-- C10: when `dispatch_intervals` is absent, empty, or holds no dict
entries, `solve_dispatch` falls back to a single-interval model: the
returned `intervals` list has length exactly 1, label `"t0"`, forecast
`max mw_forecast 0`, and `grid_limit_mw` defaulting to `0.9` times that
forecast when the `grid_limit_mw` argument is absent. -/
theorem C10_single_interval_fallback (env : SolverEnv) (a : Args)
    (out : SolveOutcome) (r : DispatchResult)
    (hok : solve_dispatch env a out = Except.ok r)
    (hlen : out.values.length = (buildProblem a).intervals.length)
    (hnone : ∀ l, a.dispatch_intervals = some l → ∀ e ∈ l, e = none) :
    r.intervals.length = 1 ∧
    (r.intervals.getD 0 default).label = "t0" ∧
    (r.intervals.getD 0 default).mw_forecast = max a.mw_forecast 0 ∧
    (a.grid_limit_mw = none →
      (r.intervals.getD 0 default).grid_limit_mw = 9 / 10 * max a.mw_forecast 0) := by
  have hproc : processedIntervals (normArgs a) = [] :=
    processedIntervals_eq_nil (normArgs a) hnone
  have hint : (buildProblem a).intervals = [fallbackInterval (normArgs a)] := by
    simp [buildProblem, intervalsOf, hproc]
  have hmw : (normArgs a).mw_forecast = max a.mw_forecast 0 := rfl
  have hr := ok_eq_project env a out r hok
  rw [hint] at hlen
  subst hr
  obtain ⟨v, hv⟩ : ∃ v, out.values = [v] := by
    cases hval : out.values with
    | nil => rw [hval] at hlen; simp at hlen
    | cons v vs =>
        rw [hval] at hlen
        simp at hlen
        exact ⟨v, by rw [hlen]⟩
  simp only [projectResult, hint, hv, buildRows, mkRow]
  refine ⟨rfl, rfl, ?_, ?_⟩
  · simp only [fallbackInterval, hmw]
    exact max_eq_left (le_max_right a.mw_forecast 0)
  · intro hgl
    have hgl' : (normArgs a).grid_limit_mw = none := hgl
    simp only [fallbackInterval, hgl', Option.getD_none, hmw]
    refine max_eq_left ?_
    positivity

/-- C1 (witness): the benchmark solve's first returned row balances
90 + 5 + 5 = 100 + 0. -/
theorem C1_energy_balance_witness :
    Feasible (buildProblem args6) out6.values ∧
    (mkRow 0 iv6 d6).dispatch_mw + (mkRow 0 iv6 d6).charge_mw +
        (mkRow 0 iv6 d6).curtailment_mw
      = (mkRow 0 iv6 d6).mw_forecast + (mkRow 0 iv6 d6).discharge_mw := by
  refine ⟨feasible6, ?_⟩
  have h := C1_energy_balance {} args6 out6 res6 rfl feasible6
  exact h (mkRow 0 iv6 d6) (by rw [res6_intervals]; simp)

/-- C2 (witness): the benchmark solve's first returned row has
`min 5 0 = 0`. -/
theorem C2_mutual_exclusion_witness :
    Feasible (buildProblem args6) out6.values ∧
    min (mkRow 0 iv6 d6).charge_mw (mkRow 0 iv6 d6).discharge_mw = 0 := by
  refine ⟨feasible6, ?_⟩
  have h := C2_mutual_exclusion {} args6 out6 res6 rfl feasible6
  exact h (mkRow 0 iv6 d6) (by rw [res6_intervals]; simp)

/-- C5 (witness): the benchmark solve's first returned row has end SoC
22.5 inside `[0, 50]`. -/
theorem C5_soc_invariants_witness :
    Feasible (buildProblem args6) out6.values ∧
    (0 ≤ (mkRow 0 iv6 d6).soc_mwh_end ∧
      (mkRow 0 iv6 d6).soc_mwh_end ≤ args6.bess_capacity_mwh) := by
  refine ⟨feasible6, ?_⟩
  have h := C5_soc_invariants {} args6 out6 res6 rfl feasible6
    (by norm_num [args6]) (by norm_num [args6]) (by norm_num [args6])
  exact h.1 (mkRow 0 iv6 d6) (by rw [res6_intervals]; simp)

/-- C7 (witness): the benchmark solve returns one row with the
aggregates tied to it. -/
theorem C7_result_projection_witness :
    out6.values.length = (buildProblem args6).intervals.length ∧
    res6.intervals.length = (buildProblem args6).intervals.length ∧
    res6.soc_mwh = (res6.intervals.getLastD default).soc_mwh_end ∧
    res6.total_curtailment_mw
      = (res6.intervals.map (fun row => row.curtailment_mw)).sum := by
  have hlen : out6.values.length = (buildProblem args6).intervals.length := by
    rw [buildProblem_args6]; rfl
  have h := C7_result_projection {} args6 out6 res6 rfl hlen
  exact ⟨hlen, h.1, h.2.2.1, h.2.1⟩

/-- The benchmark request without an explicit grid limit (the 0.9
heuristic then yields the same 90 MW cap). -/
def argsF : Args := { mw_forecast := 100 }

lemma buildProblem_argsF : buildProblem argsF = p6 1000 := by
  simp only [buildProblem, normArgs, argsF, intervalsOf, processedIntervals,
    fallbackInterval, p6]
  norm_num [max_def, min_def]

def resF : DispatchResult := projectResult (buildProblem argsF).intervals out6.values

/-- C10 (witness): with no interval list and no grid limit, the solve
returns a single `"t0"` row with forecast 100 and grid limit 90. -/
theorem C10_single_interval_fallback_witness :
    resF.intervals.length = 1 ∧
    (resF.intervals.getD 0 default).label = "t0" ∧
    (resF.intervals.getD 0 default).mw_forecast = max argsF.mw_forecast 0 ∧
    (resF.intervals.getD 0 default).grid_limit_mw
      = 9 / 10 * max argsF.mw_forecast 0 := by
  have hnone : ∀ l, argsF.dispatch_intervals = some l → ∀ e ∈ l, e = none := by
    intro l hl
    exact absurd hl (by simp [argsF])
  have hlen : out6.values.length = (buildProblem argsF).intervals.length := by
    rw [buildProblem_argsF]; rfl
  have h := C10_single_interval_fallback {} argsF out6 resF rfl hlen hnone
  exact ⟨h.1, h.2.1, h.2.2.1, h.2.2.2 rfl⟩

end DispatchCore


namespace AgentTools

open DispatchCore (orQ tLabel)

lemma getD_map_range {α : Type} [Inhabited α] (n : Nat) (g : Nat → α) (i : Nat)
    (h : i < n) : ((List.range n).map g).getD i default = g i := by
  rw [List.getD_eq_getElem?_getD, List.getElem?_map, List.getElem?_range h]
  rfl

lemma paddedSources_of_ne_nil (f : ForecastOutput) (h : effectiveSources f ≠ []) :
    paddedSources f = effectiveSources f := by
  unfold paddedSources
  rw [if_neg fun hc => h (List.isEmpty_iff.1 hc)]

lemma paddedSources_of_nil (f : ForecastOutput) (h : effectiveSources f = []) :
    paddedSources f
      = (List.range FORECAST_HORIZON).map fun idx => default_interval (tLabel idx) := by
  unfold paddedSources
  rw [if_pos (List.isEmpty_iff.2 h)]

/-- C9: `prepare_milp_payload` always emits exactly `FORECAST_HORIZON`
(six) dispatch intervals: when the forecast supplies more than six
sub-forecasts only the first six are used (truncation), when it
supplies fewer the last entry is repeated to fill, and when it supplies
none each synthesized interval replicates the scalar forecast value. -/
theorem C9_fixed_horizon (f : ForecastOutput) (r : RagOutput) (p : PlantMeta)
    (w : Option Features) :
    (prepare_milp_payload f r p w).dispatch_intervals.length = FORECAST_HORIZON ∧
    (∀ i, i < FORECAST_HORIZON → i < (effectiveSources f).length →
      (prepare_milp_payload f r p w).dispatch_intervals.getD i default
        = payloadIntervalAt f p w i ((effectiveSources f).getD i default)) ∧
    (effectiveSources f ≠ [] →
      ∀ i, (effectiveSources f).length ≤ i → i < FORECAST_HORIZON →
        (prepare_milp_payload f r p w).dispatch_intervals.getD i default
          = payloadIntervalAt f p w i ((effectiveSources f).getLastD default)) ∧
    (effectiveSources f = [] →
      ∀ i, i < FORECAST_HORIZON →
        ((prepare_milp_payload f r p w).dispatch_intervals.getD i default).mw_forecast
          = payloadMwForecast f) := by
  refine ⟨?_, ?_, ?_, ?_⟩
  · simp [prepare_milp_payload]
  · intro i h6 hlen
    have hne : effectiveSources f ≠ [] := by
      intro hc
      rw [hc] at hlen
      simp at hlen
    show ((List.range FORECAST_HORIZON).map fun idx =>
        payloadIntervalAt f p w idx (selectSource (paddedSources f) idx)).getD i default = _
    rw [getD_map_range FORECAST_HORIZON _ i h6, paddedSources_of_ne_nil f hne,
      selectSource, if_pos hlen]
  · intro hne i hge h6
    show ((List.range FORECAST_HORIZON).map fun idx =>
        payloadIntervalAt f p w idx (selectSource (paddedSources f) idx)).getD i default = _
    rw [getD_map_range FORECAST_HORIZON _ i h6, paddedSources_of_ne_nil f hne,
      selectSource, if_neg (Nat.not_lt.2 hge)]
  · intro hnil i h6
    show (((List.range FORECAST_HORIZON).map fun idx =>
        payloadIntervalAt f p w idx (selectSource (paddedSources f) idx)).getD i default).mw_forecast = _
    rw [getD_map_range FORECAST_HORIZON _ i h6, paddedSources_of_nil f hnil]
    have hsel : selectSource
        ((List.range FORECAST_HORIZON).map fun idx => default_interval (tLabel idx)) i
        = default_interval (tLabel i) := by
      rw [selectSource, if_pos (by simpa using h6), getD_map_range FORECAST_HORIZON _ i h6]
    rw [hsel]
    simp [payloadIntervalAt, buildPayloadInterval, default_interval, orQ]

/-- The concrete inputs of the C9 witness: a scalar-only forecast of
7 MW, empty RAG output, empty plant metadata, no weather snapshot. -/
def f9 : ForecastOutput := { mw := some 7 }
def r9 : RagOutput := {}
def p9 : PlantMeta := {}

/-- C9 (witness): with a scalar-only 7 MW forecast the builder emits six
intervals, each replicating the 7 MW value (shown at index 0). -/
theorem C9_fixed_horizon_witness :
    (prepare_milp_payload f9 r9 p9 none).dispatch_intervals.length = FORECAST_HORIZON ∧
    ((prepare_milp_payload f9 r9 p9 none).dispatch_intervals.getD 0 default).mw_forecast
      = 7 := by
  have h := C9_fixed_horizon f9 r9 p9 none
  refine ⟨h.1, ?_⟩
  have hnil : effectiveSources f9 = [] := rfl
  have h4 := h.2.2.2 hnil 0 (by norm_num [FORECAST_HORIZON])
  rw [h4]
  norm_num [payloadMwForecast, f9, orQ]

end AgentTools
